import Mathlib

/-!
Shallow embedding of the thermodynamic process scripts of this repository:

  - hw-1/programs/property_solver.py : the bisection property solver
  - hw-3/counterflow-hx.py           : pinch feasibility and exergy gating
  - hw-3/fluid-separator.py          : Throttle, FlashSeparator, Mixer

Python floats are modelled by exact rationals.  A PropertyService lookup
that can raise is modelled as an Option-valued function; a Python
exception escaping solve_property is the SolveResult.raised outcome.
-/

/-- Property codes of the PropertyService vocabulary (PropsSI / coolprop_cli). -/
inductive PropCode
  | T | P | H | S | Q | D | U
deriving DecidableEq

/-- Working fluids named in the scripts. -/
inductive Fluid
  | Water | Air | CO2 | Propane
deriving DecidableEq

/-- Total PropertyService, the shape of PropsSI(prop, code1, v1, code2, v2, fluid).
Used by the unit-operation constructors, whose claims quantify over every
possible service response. -/
def PropsFn : Type := PropCode → PropCode → ℚ → PropCode → ℚ → Fluid → ℚ

/-- The two kinds of Python exception that can escape solve_property:
a failing CoolProp lookup (RuntimeError) and the ZeroDivisionError raised
by the relative-error computation when target_value is zero. -/
inductive SolveError
  | lookupError
  | zeroDivisionError
deriving DecidableEq

/-- Outcome of solve_property: the converged return at line 99 of
property_solver.py, the non-converged return at line 131, or a
propagated exception. -/
inductive SolveResult
  | converged (solved actual : ℚ) (iters : ℕ)
  | nonConverged (solved actual : ℚ) (iters : ℕ)
  | raised (e : SolveError)
deriving DecidableEq

/-- The bisection loop of solve_property (property_solver.py lines 76-131).
`f guess` models `call_coolprop_cli(target_prop, known_prop, known_value,
unknown_prop, guess, fluid)`, returning none when that call raises.
`fuel` is the number of loop iterations still to run, `iter` the number
already run, and `lastActual` the Python variable `actual_value` as left
by the most recent successful lookup (none before any success).

At fuel = 0 the loop is over: the code recomputes the midpoint, performs
one more lookup (uncaught on failure) and divides by abs(target) for the
final error print (an uncaught ZeroDivisionError when target = 0) before
returning the non-converged triple.

Inside the loop, a successful lookup first reassigns actual_value, then
the relative-error division raises ZeroDivisionError iff target = 0;
that exception is caught by the same except-clause as a lookup failure:
re-raised when iter = 0, otherwise the bounds are updated by comparing
the current value of actual_value against the target. -/
def solveLoop (f : ℚ → Option ℚ) (target tol : ℚ) :
    ℕ → ℕ → ℚ → ℚ → Option ℚ → SolveResult
  | 0, iter, low, high, _ =>
    match f ((low + high) / 2) with
    | none => .raised .lookupError
    | some v =>
      if target = 0 then .raised .zeroDivisionError
      else .nonConverged ((low + high) / 2) v iter
  | fuel + 1, iter, low, high, lastActual =>
    match f ((low + high) / 2) with
    | some v =>
      if target = 0 then
        if iter = 0 then .raised .zeroDivisionError
        else if v < target then
          solveLoop f target tol fuel (iter + 1) ((low + high) / 2) high (some v)
        else
          solveLoop f target tol fuel (iter + 1) low ((low + high) / 2) (some v)
      else
        if |v - target| / |target| < tol then
          .converged ((low + high) / 2) v (iter + 1)
        else if v < target then
          solveLoop f target tol fuel (iter + 1) ((low + high) / 2) high (some v)
        else
          solveLoop f target tol fuel (iter + 1) low ((low + high) / 2) (some v)
    | none =>
      if iter = 0 then .raised .lookupError
      else
        match lastActual with
        | some prev =>
          if prev < target then
            solveLoop f target tol fuel (iter + 1) ((low + high) / 2) high lastActual
          else
            solveLoop f target tol fuel (iter + 1) low ((low + high) / 2) lastActual
        | none => .raised .lookupError

/-- solve_property(target_prop, target_value, known_prop, known_value,
unknown_prop, min_guess, max_guess, fluid, tolerance, max_iterations):
the property codes, the known value and the fluid are absorbed into the
lookup closure `f`. -/
def solve_property (f : ℚ → Option ℚ) (target_value min_guess max_guess tolerance : ℚ)
    (max_iterations : ℕ) : SolveResult :=
  solveLoop f target_value tolerance max_iterations 0 min_guess max_guess none

/-- Default tolerance of solve_property (1e-3). -/
def defaultTolerance : ℚ := 1 / 1000

/-- Default max_iterations of solve_property. -/
def defaultMaxIterations : ℕ := 50

/-- The bracket [low, high] held when the bisection loop has run all its
iterations without converging and without raising, mirroring solveLoop
branch by branch; none when the loop exits early (convergence or an
exception). -/
def loopFinalState (f : ℚ → Option ℚ) (target tol : ℚ) :
    ℕ → ℕ → ℚ → ℚ → Option ℚ → Option (ℚ × ℚ)
  | 0, _, low, high, _ => some (low, high)
  | fuel + 1, iter, low, high, lastActual =>
    match f ((low + high) / 2) with
    | some v =>
      if target = 0 then
        if iter = 0 then none
        else if v < target then
          loopFinalState f target tol fuel (iter + 1) ((low + high) / 2) high (some v)
        else
          loopFinalState f target tol fuel (iter + 1) low ((low + high) / 2) (some v)
      else
        if |v - target| / |target| < tol then none
        else if v < target then
          loopFinalState f target tol fuel (iter + 1) ((low + high) / 2) high (some v)
        else
          loopFinalState f target tol fuel (iter + 1) low ((low + high) / 2) (some v)
    | none =>
      if iter = 0 then none
      else
        match lastActual with
        | some prev =>
          if prev < target then
            loopFinalState f target tol fuel (iter + 1) ((low + high) / 2) high lastActual
          else
            loopFinalState f target tol fuel (iter + 1) low ((low + high) / 2) lastActual
        | none => none

/-- Every midpoint at which solve_property queries the PropertyService,
in order, including the post-loop midpoint of the non-convergence path. -/
def guessTrace (f : ℚ → Option ℚ) (target tol : ℚ) :
    ℕ → ℕ → ℚ → ℚ → Option ℚ → List ℚ
  | 0, _, low, high, _ => [(low + high) / 2]
  | fuel + 1, iter, low, high, lastActual =>
    ((low + high) / 2) ::
      (match f ((low + high) / 2) with
      | some v =>
        if target = 0 then
          if iter = 0 then []
          else if v < target then
            guessTrace f target tol fuel (iter + 1) ((low + high) / 2) high (some v)
          else
            guessTrace f target tol fuel (iter + 1) low ((low + high) / 2) (some v)
        else
          if |v - target| / |target| < tol then []
          else if v < target then
            guessTrace f target tol fuel (iter + 1) ((low + high) / 2) high (some v)
          else
            guessTrace f target tol fuel (iter + 1) low ((low + high) / 2) (some v)
      | none =>
        if iter = 0 then []
        else
          match lastActual with
          | some prev =>
            if prev < target then
              guessTrace f target tol fuel (iter + 1) ((low + high) / 2) high lastActual
            else
              guessTrace f target tol fuel (iter + 1) low ((low + high) / 2) lastActual
          | none => [])

/-!  counterflow-hx.py  -/

/-- mu = m_dot_h / m_dot_c if m_dot_c != 0 else float(inf)
(counterflow-hx.py line 127).  none models the float(inf) sentinel:
the division is guarded, no ZeroDivisionError can arise. -/
def computeMu (m_dot_h m_dot_c : ℚ) : Option ℚ :=
  if m_dot_c = 0 then none else some (m_dot_h / m_dot_c)

/-- Fixed data of one counterflow run (main of counterflow-hx.py), for a
finite mass-flow ratio mu.  Hh T models PropsSI(H, T, T, P, P_h, fluid_h),
Hc T models PropsSI(H, T, T, P, P_c, fluid_c); invTc h and invTh h model
safe_T_from_h(h, P_c, fluid_c) and safe_T_from_h(h, P_h, fluid_h), which
return None when the inversion fails. -/
structure HXConfig where
  T_h_in : ℚ
  T_c_in : ℚ
  dTmin : ℚ
  mu : ℚ
  Hh : ℚ → ℚ
  Hc : ℚ → ℚ
  invTc : ℚ → Option ℚ
  invTh : ℚ → Option ℚ

/-- h_h_in = PropsSI(H, T, T_h_in, P, P_h, fluid_h) (line 142). -/
def hhIn (c : HXConfig) : ℚ := c.Hh c.T_h_in

/-- h_c_in = PropsSI(H, T, T_c_in, P, P_c, fluid_c) (line 143). -/
def hcIn (c : HXConfig) : ℚ := c.Hc c.T_c_in

/-- evaluate_case(True): T_h_out = T_c_in + dTmin (line 161). -/
def caseHot_T_h_out (c : HXConfig) : ℚ := c.T_c_in + c.dTmin

/-- evaluate_case(True): h_h_out at the pinched hot outlet (line 162). -/
def caseHot_h_h_out (c : HXConfig) : ℚ := c.Hh (caseHot_T_h_out c)

/-- evaluate_case(True): h_c_out = h_c_in + mu * (h_h_in - h_h_out) (line 163). -/
def caseHot_h_c_out (c : HXConfig) : ℚ := hcIn c + c.mu * (hhIn c - caseHot_h_h_out c)

/-- evaluate_case(True): T_c_out = safe_T_from_h(h_c_out, P_c, fluid_c) (line 164). -/
def caseHot_T_c_out (c : HXConfig) : Option ℚ := c.invTc (caseHot_h_c_out c)

/-- evaluate_case(True): dT_other = T_h_in - (T_c_out if T_c_out is not None
else T_c_in) (line 166). -/
def caseHot_dT_other (c : HXConfig) : ℚ :=
  c.T_h_in - (caseHot_T_c_out c).getD c.T_c_in

/-- evaluate_case(False): T_c_out = T_h_in - dTmin (line 169). -/
def caseCold_T_c_out (c : HXConfig) : ℚ := c.T_h_in - c.dTmin

/-- evaluate_case(False): h_c_out at the pinched cold outlet (line 170). -/
def caseCold_h_c_out (c : HXConfig) : ℚ := c.Hc (caseCold_T_c_out c)

/-- evaluate_case(False): h_h_out = h_h_in - (h_c_out - h_c_in) / mu if
mu != 0 else None (line 171): the division by mu is guarded. -/
def caseCold_h_h_out (c : HXConfig) : Option ℚ :=
  if c.mu = 0 then none
  else some (hhIn c - (caseCold_h_c_out c - hcIn c) / c.mu)

/-- evaluate_case(False): T_h_out, None when h_h_out is None or the
enthalpy inversion fails (line 172). -/
def caseCold_T_h_out (c : HXConfig) : Option ℚ :=
  (caseCold_h_h_out c).bind c.invTh

/-- evaluate_case(False): dT_other = None if T_h_out is None else
T_h_out - T_c_in (line 174). -/
def caseCold_dT_other (c : HXConfig) : Option ℚ :=
  (caseCold_T_h_out c).map (fun T => T - c.T_c_in)

/-- Selection test of line 218: T_c_out_case1 is not None and
dT_other1 >= dTmin.  This is also the FEASIBLE label of the case-1
print (line 188). -/
def case1Selected (c : HXConfig) : Bool :=
  (caseHot_T_c_out c).isSome && decide (c.dTmin ≤ caseHot_dT_other c)

/-- Selection test of line 231: T_h_out_case2 is not None and
dT_other2 >= dTmin.  This is also the FEASIBLE label of the case-2
print (line 204). -/
def case2Selected (c : HXConfig) : Bool :=
  (caseCold_T_h_out c).isSome &&
    (match caseCold_dT_other c with
    | some d => decide (c.dTmin ≤ d)
    | none => false)

/-- Which pinch candidate the main flow carries into
compute_boundary_temperatures: the if / elif of lines 218-241.
some true is case 1 (pinch at hot outlet), some false is case 2,
none means TbH stays None. -/
def analysisSelection (c : HXConfig) : Option Bool :=
  if case1Selected c then some true
  else if case2Selected c then some false
  else none

/-- Whether the exergy-destruction block runs: the TbH is not None test
of line 243. -/
def exergyAnalysisPerformed (c : HXConfig) : Bool :=
  (analysisSelection c).isSome

/-!  fluid-separator.py  -/

/-- Throttle object as built by Throttle.__init__ (lines 16-30). -/
structure Throttle where
  fluid : Fluid
  T_in : ℚ
  P_in : ℚ
  P_out : ℚ
  m_dot : ℚ
  h_in : ℚ
  s_in : ℚ
  h_out : ℚ
  s_out : ℚ
  x_out : ℚ
deriving DecidableEq

/-- Throttle.__init__: inlet state looked up at (T_in, P_in), isenthalpic
h_out = h_in, outlet entropy and quality looked up at (H = h_out, P_out). -/
def mkThrottle (ps : PropsFn) (fluid : Fluid) (T_in P_in P_out m_dot : ℚ) : Throttle :=
  { fluid := fluid
    T_in := T_in
    P_in := P_in
    P_out := P_out
    m_dot := m_dot
    h_in := ps .H .T T_in .P P_in fluid
    s_in := ps .S .T T_in .P P_in fluid
    h_out := ps .H .T T_in .P P_in fluid
    s_out := ps .S .H (ps .H .T T_in .P P_in fluid) .P P_out fluid
    x_out := ps .Q .H (ps .H .T T_in .P P_in fluid) .P P_out fluid }

/-- Throttle.exergy_destruction(T0) = T0 * m_dot * (s_out - s_in) (lines 32-35). -/
def Throttle.exergy_destruction (th : Throttle) (T0 : ℚ) : ℚ :=
  T0 * (th.m_dot * (th.s_out - th.s_in))

/-- FlashSeparator object as built by FlashSeparator.__init__ (lines 46-67). -/
structure FlashSeparator where
  fluid : Fluid
  P : ℚ
  x_in : ℚ
  m_dot : ℚ
  s_in : Option ℚ
  m_dot_vap : ℚ
  m_dot_liq : ℚ
  h_vap : ℚ
  s_vap : ℚ
  T_vap : ℚ
  h_liq : ℚ
  s_liq : ℚ
  T_liq : ℚ
deriving DecidableEq

/-- FlashSeparator.__init__: split fractions m_dot_vap = x_in * m_dot and
m_dot_liq = (1 - x_in) * m_dot; saturated outlet states looked up at
(P, Q=1) and (P, Q=0); s_in stored as passed (None when omitted). -/
def mkFlashSeparator (ps : PropsFn) (fluid : Fluid) (P x_in m_dot : ℚ)
    (s_in : Option ℚ) : FlashSeparator :=
  { fluid := fluid
    P := P
    x_in := x_in
    m_dot := m_dot
    s_in := s_in
    m_dot_vap := x_in * m_dot
    m_dot_liq := (1 - x_in) * m_dot
    h_vap := ps .H .P P .Q 1 fluid
    s_vap := ps .S .P P .Q 1 fluid
    T_vap := ps .T .P P .Q 1 fluid
    h_liq := ps .H .P P .Q 0 fluid
    s_liq := ps .S .P P .Q 0 fluid
    T_liq := ps .T .P P .Q 0 fluid }

/-- FlashSeparator.exergy_destruction(T0) (lines 69-76).  When s_in is None
it is first derived from the inlet two-phase enthalpy via two lookups and
stored on the object; the method returns the Gouy-Stodola value together
with the (possibly updated) object, making the mutation explicit. -/
def FlashSeparator.exergy_destruction (ps : PropsFn) (sep : FlashSeparator)
    (T0 : ℚ) : ℚ × FlashSeparator :=
  match sep.s_in with
  | none =>
    (T0 * ((sep.m_dot_vap * sep.s_vap + sep.m_dot_liq * sep.s_liq)
        - sep.m_dot * (ps .S .H (ps .H .P sep.P .Q sep.x_in sep.fluid) .P sep.P sep.fluid)),
      { sep with
          s_in := some (ps .S .H (ps .H .P sep.P .Q sep.x_in sep.fluid) .P sep.P sep.fluid) })
  | some s =>
    (T0 * ((sep.m_dot_vap * sep.s_vap + sep.m_dot_liq * sep.s_liq)
        - sep.m_dot * s), sep)

/-- Mixer object as built by Mixer.__init__ (lines 132-147). -/
structure Mixer where
  fluid : Fluid
  P : ℚ
  h_1 : ℚ
  s_1 : ℚ
  m_dot_1 : ℚ
  h_2 : ℚ
  s_2 : ℚ
  m_dot_2 : ℚ
  m_dot_out : ℚ
  h_out : ℚ
  T_out : ℚ
  s_out : ℚ
deriving DecidableEq

/-- Mixer.__init__: m_dot_out = m_dot_1 + m_dot_2, flow-weighted
h_out = (m_dot_1 * h_1 + m_dot_2 * h_2) / m_dot_out, outlet temperature
and entropy looked up at (H = h_out, P).  The Python float division
raises ZeroDivisionError when m_dot_out = 0, so construction fails then:
none models that. -/
def mkMixer (ps : PropsFn) (fluid : Fluid) (h_1 s_1 m_dot_1 h_2 s_2 m_dot_2 P : ℚ) :
    Option Mixer :=
  if m_dot_1 + m_dot_2 = 0 then none
  else some
    { fluid := fluid
      P := P
      h_1 := h_1
      s_1 := s_1
      m_dot_1 := m_dot_1
      h_2 := h_2
      s_2 := s_2
      m_dot_2 := m_dot_2
      m_dot_out := m_dot_1 + m_dot_2
      h_out := (m_dot_1 * h_1 + m_dot_2 * h_2) / (m_dot_1 + m_dot_2)
      T_out := ps .T .H ((m_dot_1 * h_1 + m_dot_2 * h_2) / (m_dot_1 + m_dot_2)) .P P fluid
      s_out := ps .S .H ((m_dot_1 * h_1 + m_dot_2 * h_2) / (m_dot_1 + m_dot_2)) .P P fluid }

/-- Mixer.exergy_destruction(T0) (lines 126-130). -/
def Mixer.exergy_destruction (mx : Mixer) (T0 : ℚ) : ℚ :=
  T0 * (mx.m_dot_out * mx.s_out - mx.m_dot_1 * mx.s_1 - mx.m_dot_2 * mx.s_2)

/-!  Theorems.  -/

/-- C9: for every Throttle, the outlet specific enthalpy equals the inlet
specific enthalpy exactly (isenthalpic), whatever the PropertyService
returns for any lookup. -/
theorem throttle_isenthalpic (ps : PropsFn) (fluid : Fluid) (T_in P_in P_out m_dot : ℚ) :
    (mkThrottle ps fluid T_in P_in P_out m_dot).h_out
      = (mkThrottle ps fluid T_in P_in P_out m_dot).h_in := rfl

/-- C7: for every FlashSeparator, the vapor outlet mass flow is
x_in * m_dot, the liquid outlet mass flow is (1 - x_in) * m_dot, and the
two sum to the inlet mass flow; in particular under the Propane scenario
mass flow of 1.5 kg/s the outlet flows sum to exactly 1.5 kg/s. -/
theorem flash_separator_mass_split (ps : PropsFn) (fluid : Fluid)
    (P x_in m_dot : ℚ) (s_in : Option ℚ) :
    ((mkFlashSeparator ps fluid P x_in m_dot s_in).m_dot_vap = x_in * m_dot
      ∧ (mkFlashSeparator ps fluid P x_in m_dot s_in).m_dot_liq = (1 - x_in) * m_dot
      ∧ (mkFlashSeparator ps fluid P x_in m_dot s_in).m_dot_vap
          + (mkFlashSeparator ps fluid P x_in m_dot s_in).m_dot_liq = m_dot)
    ∧ ∀ x : ℚ,
        (mkFlashSeparator ps Fluid.Propane 650000 x (3/2) s_in).m_dot_vap
          + (mkFlashSeparator ps Fluid.Propane 650000 x (3/2) s_in).m_dot_liq = 3/2 := by
  refine ⟨⟨rfl, rfl, ?_⟩, fun x => ?_⟩
  · show x_in * m_dot + (1 - x_in) * m_dot = m_dot
    ring
  · show x * (3/2) + (1 - x) * (3/2) = 3/2
    ring

/-- C8: for every Mixer the construction succeeds whenever the total mass
flow is nonzero, the outlet mass flow is m_dot_1 + m_dot_2, and the
outlet enthalpy is the flow-weighted average; with equal unit flows and
enthalpies 100000 and 300000 the outlet enthalpy is exactly 200000. -/
theorem mixer_energy_balance (ps : PropsFn) (fluid : Fluid)
    (h_1 s_1 m_dot_1 h_2 s_2 m_dot_2 P : ℚ) (hm : m_dot_1 + m_dot_2 ≠ 0) :
    (∃ mx : Mixer, mkMixer ps fluid h_1 s_1 m_dot_1 h_2 s_2 m_dot_2 P = some mx
      ∧ mx.m_dot_out = m_dot_1 + m_dot_2
      ∧ mx.h_out = (m_dot_1 * h_1 + m_dot_2 * h_2) / (m_dot_1 + m_dot_2))
    ∧ ∀ s s' P' : ℚ, ∃ mx : Mixer,
        mkMixer ps fluid 100000 s 1 300000 s' 1 P' = some mx ∧ mx.h_out = 200000 := by
  constructor
  · simp only [mkMixer, if_neg hm]
    exact ⟨_, rfl, rfl, rfl⟩
  · intro s s' P'
    simp only [mkMixer, if_neg (by norm_num : (1 : ℚ) + 1 ≠ 0)]
    refine ⟨_, rfl, ?_⟩
    show ((1 : ℚ) * 100000 + 1 * 300000) / (1 + 1) = 200000
    norm_num

/-- C8 witness: a concrete mixer with nonzero total flow. -/
theorem mixer_energy_balance_witness :
    (∃ mx : Mixer,
        mkMixer (fun _ _ _ _ _ _ => 0) Fluid.Propane 4 0 1 8 0 1 5 = some mx
          ∧ mx.m_dot_out = 1 + 1
          ∧ mx.h_out = (1 * 4 + 1 * 8) / (1 + 1))
    ∧ ∃ mx : Mixer,
        mkMixer (fun _ _ _ _ _ _ => 0) Fluid.Propane 100000 0 1 300000 0 1 5 = some mx
          ∧ mx.h_out = 200000 := by
  have h := mixer_energy_balance (fun _ _ _ _ _ _ => 0) Fluid.Propane 4 0 1 8 0 1 5 (by norm_num)
  exact ⟨h.1, h.2 0 0 5⟩

/-- C10: FlashSeparator.exergy_destruction mutates only the s_in attribute
and only when the separator was built with s_in = None: the first call
stores the entropy derived from the two PropertyService lookups and
changes nothing else, and a repeated call returns the same value and the
same object; when s_in was supplied the call leaves the object unchanged. -/
theorem flash_separator_exergy_mutation (ps : PropsFn) (sep : FlashSeparator) (T0 : ℚ) :
    (sep.s_in = none →
      (FlashSeparator.exergy_destruction ps sep T0).2.s_in
          = some (ps .S .H (ps .H .P sep.P .Q sep.x_in sep.fluid) .P sep.P sep.fluid)
        ∧ (FlashSeparator.exergy_destruction ps sep T0).2.fluid = sep.fluid
        ∧ (FlashSeparator.exergy_destruction ps sep T0).2.P = sep.P
        ∧ (FlashSeparator.exergy_destruction ps sep T0).2.x_in = sep.x_in
        ∧ (FlashSeparator.exergy_destruction ps sep T0).2.m_dot = sep.m_dot
        ∧ (FlashSeparator.exergy_destruction ps sep T0).2.m_dot_vap = sep.m_dot_vap
        ∧ (FlashSeparator.exergy_destruction ps sep T0).2.m_dot_liq = sep.m_dot_liq
        ∧ (FlashSeparator.exergy_destruction ps sep T0).2.h_vap = sep.h_vap
        ∧ (FlashSeparator.exergy_destruction ps sep T0).2.s_vap = sep.s_vap
        ∧ (FlashSeparator.exergy_destruction ps sep T0).2.T_vap = sep.T_vap
        ∧ (FlashSeparator.exergy_destruction ps sep T0).2.h_liq = sep.h_liq
        ∧ (FlashSeparator.exergy_destruction ps sep T0).2.s_liq = sep.s_liq
        ∧ (FlashSeparator.exergy_destruction ps sep T0).2.T_liq = sep.T_liq
        ∧ FlashSeparator.exergy_destruction ps (FlashSeparator.exergy_destruction ps sep T0).2 T0
            = FlashSeparator.exergy_destruction ps sep T0)
    ∧ ∀ s : ℚ, sep.s_in = some s →
        FlashSeparator.exergy_destruction ps sep T0
          = (T0 * ((sep.m_dot_vap * sep.s_vap + sep.m_dot_liq * sep.s_liq)
              - sep.m_dot * s), sep) := by
  constructor
  · intro h
    simp [FlashSeparator.exergy_destruction, h]
  · intro s h
    simp [FlashSeparator.exergy_destruction, h]

/-- C10 witness: a separator built with s_in omitted, under a constant
PropertyService. -/
theorem flash_separator_exergy_mutation_witness :
    (FlashSeparator.exergy_destruction (fun _ _ _ _ _ _ => 7)
        (mkFlashSeparator (fun _ _ _ _ _ _ => 7) Fluid.Propane 650000 (1/2) (3/2) none)
        300).2.s_in = some 7
    ∧ FlashSeparator.exergy_destruction (fun _ _ _ _ _ _ => 7)
        (FlashSeparator.exergy_destruction (fun _ _ _ _ _ _ => 7)
          (mkFlashSeparator (fun _ _ _ _ _ _ => 7) Fluid.Propane 650000 (1/2) (3/2) none)
          300).2 300
      = FlashSeparator.exergy_destruction (fun _ _ _ _ _ _ => 7)
          (mkFlashSeparator (fun _ _ _ _ _ _ => 7) Fluid.Propane 650000 (1/2) (3/2) none)
          300 := by
  have h := (flash_separator_exergy_mutation (fun _ _ _ _ _ _ => 7)
    (mkFlashSeparator (fun _ _ _ _ _ _ => 7) Fluid.Propane 650000 (1/2) (3/2) none) 300).1 rfl
  exact ⟨h.1, h.2.2.2.2.2.2.2.2.2.2.2.2.2⟩

/-- C6: each pinch candidate is selected (and labelled FEASIBLE) exactly
when its opposite-end approach temperature exists and is at least dTmin;
the boundary-temperature / exergy block runs exactly when one of the two
candidates passes that test, and in particular it is skipped when both
enthalpy inversions fail or when neither candidate is feasible. -/
theorem counterflow_feasibility_gating (c : HXConfig) :
    (case1Selected c = true
        ↔ (caseHot_T_c_out c).isSome = true ∧ c.dTmin ≤ caseHot_dT_other c)
    ∧ (∀ d : ℚ, caseCold_dT_other c = some d →
        (case2Selected c = true ↔ c.dTmin ≤ d))
    ∧ (caseCold_dT_other c = none ↔ caseCold_T_h_out c = none)
    ∧ (exergyAnalysisPerformed c = true
        ↔ case1Selected c = true ∨ case2Selected c = true)
    ∧ (case1Selected c = false → case2Selected c = false →
        exergyAnalysisPerformed c = false) := by
  refine ⟨?_, ?_, ?_, ?_, ?_⟩
  · simp [case1Selected]
  · intro d hd
    have hT : ∃ T, caseCold_T_h_out c = some T ∧ T - c.T_c_in = d := by
      rcases hh : caseCold_T_h_out c with _ | T
      · rw [caseCold_dT_other, hh] at hd
        simp at hd
      · rw [caseCold_dT_other, hh] at hd
        simp at hd
        exact ⟨T, rfl, hd⟩
    rcases hT with ⟨T, hT, hTd⟩
    simp [case2Selected, hT, caseCold_dT_other, hTd]
  · rw [caseCold_dT_other]
    rcases hh : caseCold_T_h_out c with _ | T <;> simp
  · rw [exergyAnalysisPerformed, analysisSelection]
    rcases h1 : case1Selected c <;> rcases h2 : case2Selected c <;> simp
  · intro h1 h2
    rw [exergyAnalysisPerformed, analysisSelection, h1, h2]
    rfl

/-- One unfolding of the bisection loop body. -/
theorem solveLoop_succ_eq (f : ℚ → Option ℚ) (target tol : ℚ) (fuel iter : ℕ)
    (low high : ℚ) (lastActual : Option ℚ) :
    solveLoop f target tol (fuel + 1) iter low high lastActual =
      match f ((low + high) / 2) with
      | some v =>
        if target = 0 then
          if iter = 0 then .raised .zeroDivisionError
          else if v < target then
            solveLoop f target tol fuel (iter + 1) ((low + high) / 2) high (some v)
          else
            solveLoop f target tol fuel (iter + 1) low ((low + high) / 2) (some v)
        else
          if |v - target| / |target| < tol then
            .converged ((low + high) / 2) v (iter + 1)
          else if v < target then
            solveLoop f target tol fuel (iter + 1) ((low + high) / 2) high (some v)
          else
            solveLoop f target tol fuel (iter + 1) low ((low + high) / 2) (some v)
      | none =>
        if iter = 0 then .raised .lookupError
        else
          match lastActual with
          | some prev =>
            if prev < target then
              solveLoop f target tol fuel (iter + 1) ((low + high) / 2) high lastActual
            else
              solveLoop f target tol fuel (iter + 1) low ((low + high) / 2) lastActual
          | none => .raised .lookupError := rfl

/-- C2: a PropertyService failure on the very first bisection midpoint is
fatal (the error propagates out of solve_property, whatever
max_iterations is); a failure on a later iteration, after a success left
actual_value = prev, does not abort: the loop continues with the bracket
narrowed to the half chosen by comparing the stale prev against the
target (low rises to the failed guess when prev < target, otherwise high
falls to it), with actual_value left unchanged. -/
theorem solver_lookup_failure_policy :
    (∀ (f : ℚ → Option ℚ) (t low high tol : ℚ) (mi : ℕ),
      f ((low + high) / 2) = none →
      solve_property f t low high tol mi = .raised .lookupError)
    ∧ ∀ (f : ℚ → Option ℚ) (t tol : ℚ) (fuel iter : ℕ) (low high prev : ℚ),
        f ((low + high) / 2) = none →
        solveLoop f t tol (fuel + 1) (iter + 1) low high (some prev) =
          if prev < t then
            solveLoop f t tol fuel (iter + 2) ((low + high) / 2) high (some prev)
          else
            solveLoop f t tol fuel (iter + 2) low ((low + high) / 2) (some prev) := by
  constructor
  · intro f t low high tol mi hf
    cases mi with
    | zero => rw [solve_property, solveLoop, hf]
    | succ fuel =>
      rw [solve_property, solveLoop_succ_eq, hf]
      rfl
  · intro f t tol fuel iter low high prev hf
    rw [solveLoop_succ_eq, hf]
    simp

/-- C2 witness: a service failing everywhere is fatal at once when nothing
has succeeded, and a mid-search failure with a recorded actual_value = 3
below the target 5 narrows low up to the failed midpoint. -/
theorem solver_lookup_failure_policy_witness :
    solve_property (fun _ => none) 5 0 2 (1/1000) 3 = .raised .lookupError
    ∧ solveLoop (fun _ => none) 5 (1/1000) 2 1 0 2 (some 3) =
        solveLoop (fun _ => none) 5 (1/1000) 1 2 (((0 : ℚ) + 2) / 2) 2 (some 3) := by
  constructor
  · exact solver_lookup_failure_policy.1 (fun _ => none) 5 0 2 (1/1000) 3 rfl
  · have h := solver_lookup_failure_policy.2 (fun _ => none) 5 (1/1000) 1 0 0 2 3 rfl
    rwa [if_pos (by norm_num : (3 : ℚ) < 5)] at h

/-- C4 counterexample: a zero target_value is not detected before the
relative-error division; with every lookup succeeding, solve_property
with target 0 propagates a raw ZeroDivisionError from its first
iteration instead of reporting a configuration error. -/
theorem solver_zero_target_division_cex :
    solve_property (fun x => some x) 0 0 4 (1/1000) 50 = .raised .zeroDivisionError := by
  rfl

/-- C4 amended: the two counterflow divisions are guarded (a zero cold
mass flow yields the inf sentinel instead of dividing, and a zero mu
yields None for h_h_out), but solve_property has no guard: whenever the
first midpoint lookup succeeds and the target is zero, the relative-error
division raises a ZeroDivisionError that propagates out raw. -/
theorem degenerate_input_handling :
    (∀ (f : ℚ → Option ℚ) (low high tol : ℚ) (mi : ℕ) (v : ℚ),
      f ((low + high) / 2) = some v →
      solve_property f 0 low high tol (mi + 1) = .raised .zeroDivisionError)
    ∧ (∀ m_dot_h m_dot_c : ℚ, m_dot_c ≠ 0 →
        computeMu m_dot_h m_dot_c = some (m_dot_h / m_dot_c))
    ∧ (∀ m_dot_h : ℚ, computeMu m_dot_h 0 = none)
    ∧ ∀ c : HXConfig, c.mu = 0 → caseCold_h_h_out c = none := by
  refine ⟨?_, ?_, ?_, ?_⟩
  · intro f low high tol mi v hf
    rw [solve_property, solveLoop_succ_eq, hf]
    simp
  · intro mh mc h
    rw [computeMu, if_neg h]
  · intro mh
    rw [computeMu, if_pos rfl]
  · intro c h
    rw [caseCold_h_h_out, if_pos h]

/-- C4 witness: concrete instances of the four behaviours. -/
theorem degenerate_input_handling_witness :
    solve_property (fun x => some x) 0 0 2 (1/1000) 50 = .raised .zeroDivisionError
    ∧ computeMu 3 2 = some (3 / 2)
    ∧ computeMu 3 0 = none
    ∧ caseCold_h_h_out
        { T_h_in := 720, T_c_in := 310, dTmin := 12, mu := 0,
          Hh := fun T => T, Hc := fun T => T,
          invTc := fun h => some h, invTh := fun h => some h } = none := by
  refine ⟨?_, ?_, ?_, ?_⟩
  · exact degenerate_input_handling.1 (fun x => some x) 0 2 (1/1000) 49 1 (by norm_num)
  · exact degenerate_input_handling.2.1 3 2 (by norm_num)
  · exact degenerate_input_handling.2.2.1 3
  · exact degenerate_input_handling.2.2.2 _ rfl

/-- One unfolding of the loopFinalState recursion. -/
theorem loopFinalState_succ_eq (f : ℚ → Option ℚ) (target tol : ℚ) (fuel iter : ℕ)
    (low high : ℚ) (lastActual : Option ℚ) :
    loopFinalState f target tol (fuel + 1) iter low high lastActual =
      match f ((low + high) / 2) with
      | some v =>
        if target = 0 then
          if iter = 0 then none
          else if v < target then
            loopFinalState f target tol fuel (iter + 1) ((low + high) / 2) high (some v)
          else
            loopFinalState f target tol fuel (iter + 1) low ((low + high) / 2) (some v)
        else
          if |v - target| / |target| < tol then none
          else if v < target then
            loopFinalState f target tol fuel (iter + 1) ((low + high) / 2) high (some v)
          else
            loopFinalState f target tol fuel (iter + 1) low ((low + high) / 2) (some v)
      | none =>
        if iter = 0 then none
        else
          match lastActual with
          | some prev =>
            if prev < target then
              loopFinalState f target tol fuel (iter + 1) ((low + high) / 2) high lastActual
            else
              loopFinalState f target tol fuel (iter + 1) low ((low + high) / 2) lastActual
          | none => none := rfl

/-- Loop body on a successful lookup with a nonzero target: convergence
test, then bracket update. -/
theorem solveLoop_step_some (f : ℚ → Option ℚ) (t tol : ℚ) (fuel iter : ℕ)
    (low high : ℚ) (la : Option ℚ) (w : ℚ)
    (hg : f ((low + high) / 2) = some w) (ht : t ≠ 0) :
    solveLoop f t tol (fuel + 1) iter low high la =
      if |w - t| / |t| < tol then .converged ((low + high) / 2) w (iter + 1)
      else if w < t then
        solveLoop f t tol fuel (iter + 1) ((low + high) / 2) high (some w)
      else
        solveLoop f t tol fuel (iter + 1) low ((low + high) / 2) (some w) := by
  rw [solveLoop_succ_eq, hg]
  simp [ht]

/-- Loop body on a failed lookup after at least one completed iteration:
the stale actual_value = prev picks the half to keep. -/
theorem solveLoop_step_none (f : ℚ → Option ℚ) (t tol : ℚ) (fuel iter : ℕ)
    (low high prev : ℚ) (hg : f ((low + high) / 2) = none) :
    solveLoop f t tol (fuel + 1) (iter + 1) low high (some prev) =
      if prev < t then
        solveLoop f t tol fuel (iter + 1 + 1) ((low + high) / 2) high (some prev)
      else
        solveLoop f t tol fuel (iter + 1 + 1) low ((low + high) / 2) (some prev) := by
  rw [solveLoop_succ_eq, hg]
  simp

/-- loopFinalState mirror of solveLoop_step_some. -/
theorem loopFinalState_step_some (f : ℚ → Option ℚ) (t tol : ℚ) (fuel iter : ℕ)
    (low high : ℚ) (la : Option ℚ) (w : ℚ)
    (hg : f ((low + high) / 2) = some w) (ht : t ≠ 0) :
    loopFinalState f t tol (fuel + 1) iter low high la =
      if |w - t| / |t| < tol then none
      else if w < t then
        loopFinalState f t tol fuel (iter + 1) ((low + high) / 2) high (some w)
      else
        loopFinalState f t tol fuel (iter + 1) low ((low + high) / 2) (some w) := by
  rw [loopFinalState_succ_eq, hg]
  simp [ht]

/-- loopFinalState mirror of solveLoop_step_none. -/
theorem loopFinalState_step_none (f : ℚ → Option ℚ) (t tol : ℚ) (fuel iter : ℕ)
    (low high prev : ℚ) (hg : f ((low + high) / 2) = none) :
    loopFinalState f t tol (fuel + 1) (iter + 1) low high (some prev) =
      if prev < t then
        loopFinalState f t tol fuel (iter + 1 + 1) ((low + high) / 2) high (some prev)
      else
        loopFinalState f t tol fuel (iter + 1 + 1) low ((low + high) / 2) (some prev) := by
  rw [loopFinalState_succ_eq, hg]
  simp

/-- When the loop runs all its iterations (loopFinalState returns the last
bracket), the target is nonzero, and the one extra lookup at the final
midpoint succeeds, solveLoop returns that midpoint as non-converged with
the total iteration count. -/
theorem solveLoop_of_finalState (f : ℚ → Option ℚ) (t tol : ℚ) :
    ∀ (fuel iter : ℕ) (low high : ℚ) (la : Option ℚ) (l h v : ℚ),
      loopFinalState f t tol fuel iter low high la = some (l, h) →
      t ≠ 0 → f ((l + h) / 2) = some v →
      solveLoop f t tol fuel iter low high la = .nonConverged ((l + h) / 2) v (iter + fuel) := by
  intro fuel
  induction fuel with
  | zero =>
    intro iter low high la l h v hstate ht hf
    rw [loopFinalState] at hstate
    simp only [Option.some.injEq, Prod.mk.injEq] at hstate
    obtain ⟨hl, hh⟩ := hstate
    subst hl; subst hh
    rw [solveLoop, hf]
    simp [ht]
  | succ fu ih =>
    intro iter low high la l h v hstate ht hf
    rcases hg : f ((low + high) / 2) with _ | w
    · rcases iter with _ | it
      · rw [loopFinalState_succ_eq, hg] at hstate
        simp at hstate
      · rcases la with _ | prev
        · rw [loopFinalState_succ_eq, hg] at hstate
          simp at hstate
        · rw [loopFinalState_step_none f t tol fu it low high prev hg] at hstate
          rw [solveLoop_step_none f t tol fu it low high prev hg]
          by_cases hp : prev < t
          · rw [if_pos hp] at hstate ⊢
            rw [ih _ _ _ _ l h v hstate ht hf]
            congr 1
            omega
          · rw [if_neg hp] at hstate ⊢
            rw [ih _ _ _ _ l h v hstate ht hf]
            congr 1
            omega
    · rw [loopFinalState_step_some f t tol fu iter low high la w hg ht] at hstate
      rw [solveLoop_step_some f t tol fu iter low high la w hg ht]
      by_cases hconv : |w - t| / |t| < tol
      · rw [if_pos hconv] at hstate
        simp at hstate
      · rw [if_neg hconv] at hstate ⊢
        by_cases hw : w < t
        · rw [if_pos hw] at hstate ⊢
          rw [ih _ _ _ _ l h v hstate ht hf]
          congr 1
          omega
        · rw [if_neg hw] at hstate ⊢
          rw [ih _ _ _ _ l h v hstate ht hf]
          congr 1
          omega

/-- C1 counterexample: the claim omits the extra post-loop lookup.  Here
the loop runs both of its iterations without converging (the final
bracket is [6, 8]), yet solve_property fails: the lookup at the final
midpoint 7 raises and the error propagates instead of a non-converged
return. -/
theorem solver_exhaustion_lookup_crash_cex :
    loopFinalState (fun x => if x = 7 then none else some x) 10 (1/1000) 2 0 0 8 none
        = some (6, 8)
    ∧ solve_property (fun x => if x = 7 then none else some x) 10 0 8 (1/1000) 2
        = .raised .lookupError := by
  constructor
  · norm_num [loopFinalState]
  · norm_num [solve_property, solveLoop]

/-- C1 amended: when the bisection loop completes all max_iterations
iterations without converging, the target is nonzero, and the post-loop
lookup at the final midpoint succeeds, solve_property returns that
midpoint together with the value found there, tagged non-converged, with
iterations_used = max_iterations; when that extra lookup fails, the
failure propagates. -/
theorem solver_nonconvergence_returns_midpoint (f : ℚ → Option ℚ)
    (t low high tol : ℚ) (mi : ℕ) (l h v : ℚ)
    (hstate : loopFinalState f t tol mi 0 low high none = some (l, h))
    (ht : t ≠ 0) (hf : f ((l + h) / 2) = some v) :
    solve_property f t low high tol mi = .nonConverged ((l + h) / 2) v mi := by
  have := solveLoop_of_finalState f t tol mi 0 low high none l h v hstate ht hf
  rw [solve_property, this]
  congr 1
  omega

/-- C1 witness: two non-converging iterations on f(x) = x against target
10 leave the bracket [6, 8]; the final midpoint 7 is returned
non-converged with iterations_used = 2. -/
theorem solver_nonconvergence_returns_midpoint_witness :
    solve_property (fun x => some x) 10 0 8 (1/1000) 2
      = .nonConverged (((6 : ℚ) + 8) / 2) 7 2 := by
  exact solver_nonconvergence_returns_midpoint (fun x => some x) 10 0 8 (1/1000) 2 6 8 7
    (by norm_num [loopFinalState]) (by norm_num) (by norm_num)

/-- For a bracketed linear relation the midpoint value misses the target
by at most half the bracket image width. -/
theorem midpoint_abs_le (a b t low high : ℚ)
    (h1 : a * low + b ≤ t) (h2 : t ≤ a * high + b) :
    |a * ((low + high) / 2) + b - t| ≤ a * (high - low) / 2 := by
  rw [abs_le]
  constructor <;> linarith

/-- A bracket for an increasing linear relation is ordered. -/
theorem bracket_le (a b t low high : ℚ) (ha : 0 < a)
    (h1 : a * low + b ≤ t) (h2 : t ≤ a * high + b) : low ≤ high := by
  have h : a * low ≤ a * high := by linarith
  exact le_of_mul_le_mul_left h ha

/-- Bisection convergence for the loop on an increasing linear property
f(x) = a * x + b with a bracketed nonzero target: once the remaining
fuel satisfies the width condition, the loop converges inside the
bracket, within the relative tolerance, using at most the remaining
iterations. -/
theorem solveLoop_linear_converges (a b t tol : ℚ) (ha : 0 < a) (ht : t ≠ 0) :
    ∀ (fuel iter : ℕ) (low high : ℚ) (la : Option ℚ),
      a * low + b ≤ t → t ≤ a * high + b →
      a * (high - low) < tol * |t| * 2 ^ (fuel + 1) →
      ∃ g v n,
        solveLoop (fun x => some (a * x + b)) t tol (fuel + 1) iter low high la
            = .converged g v n
          ∧ n ≤ iter + (fuel + 1) ∧ v = a * g + b ∧ |v - t| < tol * |t|
          ∧ low ≤ g ∧ g ≤ high := by
  intro fuel
  induction fuel with
  | zero =>
    intro iter low high la h1 h2 hw
    have hlh : low ≤ high := bracket_le a b t low high ha h1 h2
    have hmid := midpoint_abs_le a b t low high h1 h2
    have htpos : 0 < |t| := abs_pos.mpr ht
    have herr : |a * ((low + high) / 2) + b - t| < tol * |t| := by
      have h21 : (2 : ℚ) ^ (0 + 1) = 2 := by norm_num
      rw [h21] at hw
      linarith
    have hconv : |a * ((low + high) / 2) + b - t| / |t| < tol := by
      rw [div_lt_iff htpos]
      linarith
    rw [solveLoop_step_some (fun x => some (a * x + b)) t tol 0 iter low high la
      (a * ((low + high) / 2) + b) rfl ht, if_pos hconv]
    exact ⟨(low + high) / 2, a * ((low + high) / 2) + b, iter + 1, rfl, by omega, rfl,
      herr, by linarith, by linarith⟩
  | succ fu ih =>
    intro iter low high la h1 h2 hw
    have hlh : low ≤ high := bracket_le a b t low high ha h1 h2
    have htpos : 0 < |t| := abs_pos.mpr ht
    rw [solveLoop_step_some (fun x => some (a * x + b)) t tol (fu + 1) iter low high la
      (a * ((low + high) / 2) + b) rfl ht]
    by_cases hconv : |a * ((low + high) / 2) + b - t| / |t| < tol
    · rw [if_pos hconv]
      have herr : |a * ((low + high) / 2) + b - t| < tol * |t| := by
        rw [div_lt_iff htpos] at hconv
        linarith
      exact ⟨(low + high) / 2, a * ((low + high) / 2) + b, iter + 1, rfl, by omega, rfl,
        herr, by linarith, by linarith⟩
    · rw [if_neg hconv]
      rw [pow_succ] at hw
      by_cases hv : a * ((low + high) / 2) + b < t
      · rw [if_pos hv]
        have h1' : a * ((low + high) / 2) + b ≤ t := le_of_lt hv
        have hw' : a * (high - (low + high) / 2) < tol * |t| * 2 ^ (fu + 1) := by
          have hhalf : high - (low + high) / 2 = (high - low) / 2 := by ring
          rw [hhalf]
          linarith
        obtain ⟨g, v, n, hrun, hn, hvg, herr, hg1, hg2⟩ :=
          ih (iter + 1) ((low + high) / 2) high (some (a * ((low + high) / 2) + b)) h1' h2 hw'
        exact ⟨g, v, n, hrun, by omega, hvg, herr, by linarith, hg2⟩
      · rw [if_neg hv]
        push_neg at hv
        have hw' : a * ((low + high) / 2 - low) < tol * |t| * 2 ^ (fu + 1) := by
          have hhalf : (low + high) / 2 - low = (high - low) / 2 := by ring
          rw [hhalf]
          linarith
        obtain ⟨g, v, n, hrun, hn, hvg, herr, hg1, hg2⟩ :=
          ih (iter + 1) low ((low + high) / 2) (some (a * ((low + high) / 2) + b)) h1 hv hw'
        exact ⟨g, v, n, hrun, by omega, hvg, herr, hg1, by linarith⟩

/-- C3 counterexample: a decreasing monotonic linear function with the
root bracketed.  f(x) = -x with target -1 has root 1 inside [0, 4], yet
the bracket update (written for increasing relations) walks away from
the root: after all 4 iterations the solver reports non-convergence at
31/8 instead of converging to the root. -/
theorem solver_linear_convergence_cex :
    (-1 * (4 : ℚ) + 0 ≤ -1 ∧ (-1 : ℚ) ≤ -1 * 0 + 0)
    ∧ solve_property (fun x => some (-1 * x + 0)) (-1) 0 4 (1/1000) 4
        = .nonConverged (31/8) (-(31/8)) 4 := by
  constructor
  · constructor <;> norm_num
  · norm_num [solve_property, solveLoop, abs_of_nonneg, abs_of_nonpos]

/-- C3 amended: for an increasing linear property f(x) = a * x + b with
a > 0, a nonzero target bracketed by the caller bounds, and
max_iterations large enough that a * (high - low) < tolerance * |target|
* 2 ^ max_iterations, solve_property converges: it returns a converged
result inside the bracket whose achieved value is within the relative
tolerance of the target, with iterations_used at most max_iterations. -/
theorem solver_linear_convergence (a b t low high tol : ℚ) (mi : ℕ)
    (ha : 0 < a) (ht : t ≠ 0) (h1 : a * low + b ≤ t) (h2 : t ≤ a * high + b)
    (hmi : 1 ≤ mi) (hw : a * (high - low) < tol * |t| * 2 ^ mi) :
    ∃ g v n,
      solve_property (fun x => some (a * x + b)) t low high tol mi = .converged g v n
        ∧ n ≤ mi ∧ v = a * g + b ∧ |v - t| < tol * |t| ∧ low ≤ g ∧ g ≤ high := by
  obtain ⟨fu, rfl⟩ : ∃ fu, mi = fu + 1 := ⟨mi - 1, by omega⟩
  obtain ⟨g, v, n, hrun, hn, hvg, herr, hg1, hg2⟩ :=
    solveLoop_linear_converges a b t tol ha ht fu 0 low high none h1 h2 hw
  exact ⟨g, v, n, hrun, by omega, hvg, herr, hg1, hg2⟩

/-- C3 witness: f(x) = 2x + 1 against target 9 over [0, 8] with
tolerance 1/1000 and 11 iterations allowed. -/
theorem solver_linear_convergence_witness :
    ∃ g v n,
      solve_property (fun x => some (2 * x + 1)) 9 0 8 (1/1000) 11 = .converged g v n
        ∧ n ≤ 11 ∧ v = 2 * g + 1 ∧ |v - 9| < 1/1000 * |(9 : ℚ)| ∧ 0 ≤ g ∧ g ≤ 8 := by
  exact solver_linear_convergence 2 1 9 0 8 (1/1000) 11 (by norm_num) (by norm_num)
    (by norm_num) (by norm_num) (by norm_num) (by norm_num)

/-- One unfolding of the guessTrace recursion. -/
theorem guessTrace_succ_eq (f : ℚ → Option ℚ) (target tol : ℚ) (fuel iter : ℕ)
    (low high : ℚ) (lastActual : Option ℚ) :
    guessTrace f target tol (fuel + 1) iter low high lastActual =
      ((low + high) / 2) ::
        (match f ((low + high) / 2) with
        | some v =>
          if target = 0 then
            if iter = 0 then []
            else if v < target then
              guessTrace f target tol fuel (iter + 1) ((low + high) / 2) high (some v)
            else
              guessTrace f target tol fuel (iter + 1) low ((low + high) / 2) (some v)
          else
            if |v - target| / |target| < tol then []
            else if v < target then
              guessTrace f target tol fuel (iter + 1) ((low + high) / 2) high (some v)
            else
              guessTrace f target tol fuel (iter + 1) low ((low + high) / 2) (some v)
        | none =>
          if iter = 0 then []
          else
            match lastActual with
            | some prev =>
              if prev < target then
                guessTrace f target tol fuel (iter + 1) ((low + high) / 2) high lastActual
              else
                guessTrace f target tol fuel (iter + 1) low ((low + high) / 2) lastActual
            | none => []) := rfl

/-- Every midpoint the solver ever evaluates stays inside the current
bracket, hence inside the caller-supplied bounds. -/
theorem guessTrace_bounds (f : ℚ → Option ℚ) (t tol : ℚ) :
    ∀ (fuel iter : ℕ) (low high : ℚ) (la : Option ℚ), low ≤ high →
      ∀ g ∈ guessTrace f t tol fuel iter low high la, low ≤ g ∧ g ≤ high := by
  intro fuel
  induction fuel with
  | zero =>
    intro iter low high la hlh g hg
    rw [guessTrace] at hg
    simp only [List.mem_singleton] at hg
    subst hg
    constructor <;> linarith
  | succ fu ih =>
    intro iter low high la hlh g hg
    have hm1 : low ≤ (low + high) / 2 := by linarith
    have hm2 : (low + high) / 2 ≤ high := by linarith
    rw [guessTrace_succ_eq] at hg
    have hg2 := List.mem_cons.mp hg
    clear hg
    rcases hg2 with rfl | hg2
    · exact ⟨hm1, hm2⟩
    · repeat' split at hg2
      all_goals
        first
        | exact absurd hg2 (List.not_mem_nil g)
        | (obtain ⟨u1, u2⟩ := ih _ _ _ _ (by linarith) g hg2
           exact ⟨by linarith, by linarith⟩)

/-- C5 counterexample: with f(x) = x, target 1 = f(low), bounds [1, 3]
and tolerance 1/10, the solver needs 5 iterations, not one or two: each
midpoint only halves the distance to the root, so the relative error
first drops below the tolerance at 17/16. -/
theorem solver_boundary_iterations_cex :
    ((1 : ℚ) = 1 * 1 + 0)
    ∧ solve_property (fun x => some (1 * x + 0)) 1 1 3 (1/10) 8
        = .converged (17/16) (17/16) 5 := by
  constructor
  · norm_num
  · show solveLoop (fun x => some (1 * x + 0)) 1 (1/10) 8 0 1 3 none
        = .converged (17/16) (17/16) 5
    rw [solveLoop_step_some (fun x => some (1 * x + 0)) 1 (1/10) 7 0 1 3 none 2
      (by norm_num) (by norm_num)]
    norm_num
    rw [solveLoop_step_some (fun x => some x) 1 (1/10) 6 1 1 2 (some 2) (3/2)
      (by norm_num) (by norm_num)]
    norm_num
    rw [solveLoop_step_some (fun x => some x) 1 (1/10) 5 2 1 (3/2) (some (3/2)) (5/4)
      (by norm_num) (by norm_num)]
    norm_num
    rw [solveLoop_step_some (fun x => some x) 1 (1/10) 4 3 1 (5/4) (some (5/4)) (9/8)
      (by norm_num) (by norm_num)]
    norm_num
    rw [solveLoop_step_some (fun x => some x) 1 (1/10) 3 4 1 (9/8) (some (9/8)) (17/16)
      (by norm_num) (by norm_num)]
    norm_num [abs_of_nonneg]

/-- C5 amended: when the target equals the property value at one of the
caller-supplied bounds (increasing linear property, nonzero target, and
an iteration budget satisfying the same width condition as the general
convergence statement), solve_property still converges within
max_iterations — though not necessarily within two iterations — and
every bisection midpoint it ever evaluates lies inside [low, high]. -/
theorem solver_boundary_behavior (a b t low high tol : ℚ) (mi : ℕ)
    (ha : 0 < a) (ht : t ≠ 0) (hlh : low ≤ high)
    (hb : t = a * low + b ∨ t = a * high + b)
    (hmi : 1 ≤ mi) (hw : a * (high - low) < tol * |t| * 2 ^ mi) :
    (∃ g v n,
      solve_property (fun x => some (a * x + b)) t low high tol mi = .converged g v n
        ∧ n ≤ mi ∧ low ≤ g ∧ g ≤ high)
    ∧ ∀ g ∈ guessTrace (fun x => some (a * x + b)) t tol mi 0 low high none,
        low ≤ g ∧ g ≤ high := by
  have hmono : a * low ≤ a * high := mul_le_mul_of_nonneg_left hlh ha.le
  have h1 : a * low + b ≤ t := by
    rcases hb with h | h
    · exact h.ge
    · rw [h]; linarith
  have h2 : t ≤ a * high + b := by
    rcases hb with h | h
    · rw [h]; linarith
    · exact h.le
  obtain ⟨fu, rfl⟩ : ∃ fu, mi = fu + 1 := ⟨mi - 1, by omega⟩
  obtain ⟨g, v, n, hrun, hn, _, _, hg1, hg2⟩ :=
    solveLoop_linear_converges a b t tol ha ht fu 0 low high none h1 h2 hw
  exact ⟨⟨g, v, n, hrun, by omega, hg1, hg2⟩,
    fun g hg => guessTrace_bounds (fun x => some (a * x + b)) t tol (fu + 1) 0 low high none hlh g hg⟩

/-- C5 witness: f(x) = x, target 1 = f(low) over [1, 3], 11 iterations
allowed. -/
theorem solver_boundary_behavior_witness :
    (∃ g v n,
      solve_property (fun x => some (1 * x + 0)) 1 1 3 (1/1000) 11 = .converged g v n
        ∧ n ≤ 11 ∧ 1 ≤ g ∧ g ≤ 3)
    ∧ ∀ g ∈ guessTrace (fun x => some (1 * x + 0)) 1 (1/1000) 11 0 1 3 none,
        (1 : ℚ) ≤ g ∧ g ≤ 3 := by
  exact solver_boundary_behavior 1 0 1 1 3 (1/1000) 11 (by norm_num) (by norm_num)
    (by norm_num) (Or.inl (by norm_num)) (by norm_num) (by norm_num)
